import Mathlib

/-!
Verification of the sdoque/systems device-integration programs: a shallow
embedding of the leveler feedback controller (src/leveler) and of the
revolutionary state-owner and request-gateway (src/revolutionary), with
theorems settling the specified properties.

Go float64 values are modelled as real numbers; Go time instants and
durations (time.Time, time.Duration) are modelled as integers counting
nanoseconds.
-/

namespace Systems

/-- Signal form (forms.SignalA_v1a): a floating-point value, a unit tag and
a capture timestamp. -/
structure SignalA_v1a where
  Value : ℝ
  Unit : String
  Timestamp : ℤ

namespace Leveler

/-- Traits of the leveler unit asset (src/leveler, type Traits): setpoint,
sampling period, gains, decay time constant, and the controller state
fields.  `Period` is the configured number of seconds: in Go it is a
`time.Duration` count that `calculateOutput` multiplies by `time.Second`
and converts back with `.Seconds()`, which yields the configured number
itself.  `jitter` is a `time.Duration`, counted in nanoseconds. -/
structure Traits where
  SetPt : ℝ
  Period : ℝ
  Kp : ℝ
  Lambda : ℝ
  Ki : ℝ
  jitter : ℤ
  deviation : ℝ
  integral : ℝ
  previousLevel : ℝ

/-- calculateOutput (src/leveler): the PI controller computation.  It
updates `ua.integral` in place and returns the clamped output; here the
updated Traits record is returned together with the output. -/
noncomputable def calculateOutput (ua : Traits) (levelDiff : ℝ) : Traits × ℝ :=
  let pTerm := ua.Kp * levelDiff
  let sampleSeconds := ua.Period
  let decay := Real.exp (-sampleSeconds / ua.Lambda)
  let integral := decay * ua.integral + levelDiff * sampleSeconds
  let iTerm := ua.Ki * integral
  let output := pTerm + iTerm
  let clamped := if output < 0 then 0 else if output > 100 then 100 else output
  ({ ua with integral := integral }, clamped)

/-- Clamping of an output value to the actuator range [0, 100], as written
at the end of calculateOutput. -/
noncomputable def clampOutput (x : ℝ) : ℝ :=
  if x < 0 then 0 else if x > 100 then 100 else x

/-- Traits as seeded by initTemplate (src/leveler): SetPt 20, Period 5,
Kp 5, Lambda 0.5, Ki 0, with zeroed controller state. -/
noncomputable def templateTraits : Traits :=
  { SetPt := 20, Period := 5, Kp := 5, Lambda := 0.5, Ki := 0,
    jitter := 0, deviation := 0, integral := 0, previousLevel := 0 }

/-- The template traits with the proportional gain raised to 50, the
saturation scenario of the spec. -/
noncomputable def saturationTraits : Traits :=
  { templateTraits with Kp := 50 }

/-- C1: one call of calculateOutput first updates the stored integral to
exp(−T/λ)·integral + d·T and then returns Kp·d + Ki·new_integral clamped;
with the template traits (setpoint 20, Kp 5, Ki 0) and measured value 15
the deviation is 5 and the returned output is 25. -/
theorem calculateOutput_integral_and_output (ua : Traits) (d : ℝ) :
    (calculateOutput ua d).1.integral
      = Real.exp (-ua.Period / ua.Lambda) * ua.integral + d * ua.Period
    ∧ (calculateOutput ua d).2
      = clampOutput (ua.Kp * d + ua.Ki * (calculateOutput ua d).1.integral)
    ∧ templateTraits.SetPt - 15 = 5
    ∧ (calculateOutput templateTraits 5).2 = 25 := by
  refine ⟨rfl, rfl, by norm_num [templateTraits], ?_⟩
  show clampOutput (templateTraits.Kp * 5 + templateTraits.Ki *
    (calculateOutput templateTraits 5).1.integral) = 25
  simp only [templateTraits, clampOutput, calculateOutput]
  norm_num

/-- C2: the value returned by calculateOutput always lies in [0, 100]
(reals carry no NaN, matching the non-NaN hypothesis of the claim); in the
saturation scenario (setpoint 20, Kp 50, Ki 0, measured 0) the deviation
is 20, the raw output is 1000 and the returned output is clamped to 100. -/
theorem calculateOutput_clamped (ua : Traits) (d : ℝ) :
    (0 ≤ (calculateOutput ua d).2 ∧ (calculateOutput ua d).2 ≤ 100)
    ∧ saturationTraits.SetPt - 0 = 20
    ∧ saturationTraits.Kp * 20 + saturationTraits.Ki *
        (calculateOutput saturationTraits 20).1.integral = 1000
    ∧ (calculateOutput saturationTraits 20).2 = 100 := by
  refine ⟨?_, by norm_num [saturationTraits, templateTraits], ?_, ?_⟩
  · simp only [calculateOutput]
    constructor <;> split_ifs <;> linarith
  · simp only [saturationTraits, templateTraits, calculateOutput]
    norm_num
  · simp only [saturationTraits, templateTraits, calculateOutput, clampOutput]
    norm_num

/-- Environment of one controller cycle (processFeedbackLoop, src/leveler):
the outcome of the upstream level read (GetState followed by the form type
assertion; `none` on any failure), the outcomes of usecases.Pack and of the
downstream SetState call, and the wall-clock duration in nanoseconds
measured by `time.Since(jitterStart)` at the end of the cycle. -/
structure Cycle where
  readResult : Option ℝ
  packOk : Bool
  writeOk : Bool
  elapsed : ℤ

/-- processFeedbackLoop (src/leveler): one control cycle.  A failed read,
a failed pack or a failed write each make the Go function return early;
the mutations performed up to that point remain. -/
noncomputable def processFeedbackLoop (ua : Traits) (c : Cycle) : Traits :=
  match c.readResult with
  | none => ua
  | some lvl =>
    let deviation := ua.SetPt - lvl
    let ua1 := { ua with deviation := deviation }
    let r := calculateOutput ua1 deviation
    if c.packOk = false then r.1
    else if c.writeOk = false then r.1
    else
      let ua2 := if lvl ≠ r.1.previousLevel then { r.1 with previousLevel := lvl } else r.1
      { ua2 with jitter := c.elapsed }

/-- feedbackLoop (src/leveler): the ticking loop, one processFeedbackLoop
call per tick; a failed cycle returns early but the loop keeps ticking. -/
noncomputable def feedbackLoop (ua : Traits) (cs : List Cycle) : Traits :=
  cs.foldl processFeedbackLoop ua

/-- getJitter (src/leveler): a signal form exposing the stored jitter
converted to milliseconds (`time.Duration.Milliseconds` is integer
division of the nanosecond count by 10^6), stamped with the current
time. -/
noncomputable def getJitter (ua : Traits) (now : ℤ) : SignalA_v1a :=
  { Value := ((ua.jitter / 1000000 : ℤ) : ℝ), Unit := "millisecond", Timestamp := now }

/-- C4: a failed upstream read skips the cycle entirely (the Traits are
returned unchanged); a failed downstream write after a successful read
leaves the freshly computed deviation and integral in place while
previousLevel and jitter keep their old values; and in both cases the
loop simply proceeds with the remaining cycles. -/
theorem processFeedbackLoop_failure_policy (ua : Traits) (lvl : ℝ)
    (p w : Bool) (e e' : ℤ) (cs : List Cycle) :
    processFeedbackLoop ua ⟨none, p, w, e⟩ = ua
    ∧ (processFeedbackLoop ua ⟨some lvl, true, false, e'⟩).deviation = ua.SetPt - lvl
    ∧ (processFeedbackLoop ua ⟨some lvl, true, false, e'⟩).integral
        = Real.exp (-ua.Period / ua.Lambda) * ua.integral + (ua.SetPt - lvl) * ua.Period
    ∧ (processFeedbackLoop ua ⟨some lvl, true, false, e'⟩).previousLevel = ua.previousLevel
    ∧ (processFeedbackLoop ua ⟨some lvl, true, false, e'⟩).jitter = ua.jitter
    ∧ feedbackLoop ua (⟨none, p, w, e⟩ :: cs) = feedbackLoop ua cs
    ∧ feedbackLoop ua (⟨some lvl, true, false, e'⟩ :: cs)
        = feedbackLoop (processFeedbackLoop ua ⟨some lvl, true, false, e'⟩) cs := by
  refine ⟨rfl, rfl, rfl, rfl, rfl, ?_, rfl⟩
  simp only [feedbackLoop, List.foldl_cons]
  rfl

/-- Concrete traits used to exhibit the jitter behaviour on a failed
write: the template traits, whose stored jitter is 0. -/
noncomputable def jitterTraits : Traits := templateTraits

/-- C6 counterexample: in a cycle that reaches the downstream write but
whose write fails (elapsed time 7 ns), the stored jitter is left at its
old value 0 instead of being updated to 7: processFeedbackLoop returns
before the jitter assignment when SetState fails. -/
theorem jitter_unchanged_on_failed_write :
    (processFeedbackLoop jitterTraits ⟨some 10, true, false, 7⟩).jitter = 0
    ∧ ((processFeedbackLoop jitterTraits ⟨some 10, true, false, 7⟩).jitter
        ≠ (Cycle.mk (some 10) true false 7).elapsed) := by
  constructor
  · rfl
  · show (0 : ℤ) ≠ 7
    decide

/-- C6 amended: the stored jitter is updated to the elapsed wall-clock
duration of the cycle only when the downstream write succeeds, and
getJitter exposes the stored jitter as a read-only signal in
milliseconds. -/
theorem jitter_updated_on_successful_write (ua : Traits) (lvl : ℝ) (e now : ℤ) :
    (processFeedbackLoop ua ⟨some lvl, true, true, e⟩).jitter = e
    ∧ getJitter ua now
        = { Value := ((ua.jitter / 1000000 : ℤ) : ℝ), Unit := "millisecond",
            Timestamp := now } :=
  ⟨rfl, rfl⟩

/-- The integral stored after n successive calculateOutput calls with the
same constant deviation d. -/
noncomputable def integralSeq (ua : Traits) (d : ℝ) : ℕ → ℝ :=
  fun n => ((fun t => (calculateOutput t d).1)^[n] ua).integral

lemma calculateOutput_integral_eq (t : Traits) (d : ℝ) :
    (calculateOutput t d).1.integral
      = Real.exp (-t.Period / t.Lambda) * t.integral + d * t.Period := rfl

lemma calculateOutput_iterate_fields (ua : Traits) (d : ℝ) (n : ℕ) :
    ((fun t => (calculateOutput t d).1)^[n] ua).Period = ua.Period
    ∧ ((fun t => (calculateOutput t d).1)^[n] ua).Lambda = ua.Lambda := by
  induction n with
  | zero => exact ⟨rfl, rfl⟩
  | succ n ih =>
    rw [Function.iterate_succ_apply']
    exact ⟨ih.1, ih.2⟩

lemma integralSeq_succ (ua : Traits) (d : ℝ) (n : ℕ) :
    integralSeq ua d (n + 1)
      = Real.exp (-ua.Period / ua.Lambda) * integralSeq ua d n + d * ua.Period := by
  have hf := calculateOutput_iterate_fields ua d n
  simp only [integralSeq, Function.iterate_succ_apply', calculateOutput_integral_eq,
    hf.1, hf.2]

lemma integralSeq_closed_form (ua : Traits) (d : ℝ)
    (ha : Real.exp (-ua.Period / ua.Lambda) ≠ 1) (n : ℕ) :
    integralSeq ua d n
      = d * ua.Period / (1 - Real.exp (-ua.Period / ua.Lambda))
        + Real.exp (-ua.Period / ua.Lambda) ^ n
          * (ua.integral - d * ua.Period / (1 - Real.exp (-ua.Period / ua.Lambda))) := by
  set a := Real.exp (-ua.Period / ua.Lambda) with hadef
  have h1a : 1 - a ≠ 0 := fun h => ha (by linarith [sub_eq_zero.mp h])
  induction n with
  | zero =>
    show ua.integral = _
    rw [pow_zero]
    ring
  | succ n ih =>
    rw [integralSeq_succ, ih, ← hadef]
    field_simp
    ring

/-- C5: for positive period, time constant and constant deviation, the
iterated integral update stays bounded and converges to the fixed point
d·T / (1 − exp(−T/λ)). -/
theorem integralSeq_bounded_and_converges (ua : Traits) (d : ℝ)
    (hT : 0 < ua.Period) (hL : 0 < ua.Lambda) (hd : 0 < d) :
    (∃ M : ℝ, ∀ n : ℕ, |integralSeq ua d n| ≤ M)
    ∧ Filter.Tendsto (integralSeq ua d) Filter.atTop
        (nhds (d * ua.Period / (1 - Real.exp (-ua.Period / ua.Lambda)))) := by
  set a := Real.exp (-ua.Period / ua.Lambda) with hadef
  have ha0 : 0 < a := Real.exp_pos _
  have ha1 : a < 1 := by
    rw [hadef, Real.exp_lt_one_iff, neg_div]
    have hq : 0 < ua.Period / ua.Lambda := div_pos hT hL
    linarith
  have hane : a ≠ 1 := ne_of_lt ha1
  set p := d * ua.Period / (1 - a) with hpdef
  have hclosed : ∀ n, integralSeq ua d n = p + a ^ n * (ua.integral - p) :=
    integralSeq_closed_form ua d hane
  constructor
  · refine ⟨|p| + |ua.integral - p|, fun n => ?_⟩
    rw [hclosed n]
    have h1 : |p + a ^ n * (ua.integral - p)| ≤ |p| + |a ^ n * (ua.integral - p)| :=
      abs_add _ _
    have h2 : |a ^ n * (ua.integral - p)| = a ^ n * |ua.integral - p| := by
      rw [abs_mul, abs_of_nonneg (pow_nonneg ha0.le n)]
    have h3 : a ^ n ≤ 1 := pow_le_one₀ ha0.le ha1.le
    have h4 : a ^ n * |ua.integral - p| ≤ 1 * |ua.integral - p| := by
      apply mul_le_mul_of_nonneg_right h3 (abs_nonneg _)
    calc |p + a ^ n * (ua.integral - p)|
        ≤ |p| + |a ^ n * (ua.integral - p)| := h1
      _ = |p| + a ^ n * |ua.integral - p| := by rw [h2]
      _ ≤ |p| + 1 * |ua.integral - p| := by linarith
      _ = |p| + |ua.integral - p| := by ring
  · have hfun : integralSeq ua d = fun n => p + a ^ n * (ua.integral - p) :=
      funext hclosed
    rw [hfun]
    have hpow : Filter.Tendsto (fun n : ℕ => a ^ n) Filter.atTop (nhds 0) :=
      tendsto_pow_atTop_nhds_zero_of_lt_one ha0.le ha1
    have hmul : Filter.Tendsto (fun n : ℕ => a ^ n * (ua.integral - p))
        Filter.atTop (nhds (0 * (ua.integral - p))) := hpow.mul_const _
    have hall : Filter.Tendsto (fun n : ℕ => p + a ^ n * (ua.integral - p))
        Filter.atTop (nhds (p + 0 * (ua.integral - p))) :=
      tendsto_const_nhds.add hmul
    simpa using hall

/-- C5 witness: the convergence theorem applied to the template traits
(period 5 s, λ = 0.5) with constant deviation 1. -/
theorem integralSeq_bounded_and_converges_witness :
    (∃ M : ℝ, ∀ n : ℕ, |integralSeq templateTraits 1 n| ≤ M)
    ∧ Filter.Tendsto (integralSeq templateTraits 1) Filter.atTop
        (nhds (1 * templateTraits.Period
          / (1 - Real.exp (-templateTraits.Period / templateTraits.Lambda)))) :=
  integralSeq_bounded_and_converges templateTraits 1
    (by norm_num [templateTraits]) (by norm_num [templateTraits]) (by norm_num)

end Leveler

namespace Revolutionary

/-- Traits of the revolutionary unit asset (src/revolutionary/thing.go,
type Traits): the IO address and the value range configuration, plus the
last stored value. -/
structure Traits where
  Address : String
  Value : ℝ
  MinValue : ℝ
  MaxValue : ℝ

/-- NormalizeToPercent (src/revolutionary/thing.go): divides the reading
by 100 and clamps the result to [0, 100]; the min and max parameters are
accepted but unused (the range-scaling expression is commented out in the
source). -/
noncomputable def NormalizeToPercent (reading min max : ℝ) : ℝ :=
  let percent := reading / 100
  if percent < 0 then 0
  else if percent > 100 then 100
  else percent

/-- readInputVoltage (src/revolutionary/thing.go): runs the piTest tool
and parses its output.  The external outcome is abstracted as an optional
raw integer reading; every failure path of the Go function returns the
value 0 together with a non-nil error (modelled by the Bool). -/
def readInputVoltage (cmdResult : Option ℤ) : ℝ × Bool :=
  match cmdResult with
  | none => (0, false)
  | some raw => ((raw : ℝ), true)

/-- One tick of the sampling goroutine inside sampleSignal
(src/revolutionary/thing.go): read the voltage, log the outcome, then
normalize the returned value unconditionally — the error branch only logs
— and deliver the normalized value on sigChan. -/
noncomputable def sampleTick (ua : Traits) (cmdResult : Option ℤ) : ℝ :=
  let vr := readInputVoltage cmdResult
  NormalizeToPercent vr.1 ua.MinValue ua.MaxValue

/-- State held by the unit asset's owner loop: its Traits (whose Value
field is the last stored signal value) and the capture timestamp
(nanoseconds). -/
structure UnitAssetState where
  traits : Traits
  tStamp : ℤ

/-- Events multiplexed by the select loop of sampleSignal
(src/revolutionary/thing.go, lines 202-227): a sample delivery (sigChan
then tStampChan), a read request on serviceChannel, or an output request
on outputChannel (which drives the hardware but leaves the owner state
untouched). -/
inductive OwnerEvent where
  | sample (nv : ℝ) (ts : ℤ)
  | read
  | output (v : ℝ)

/-- One turn of the owner select loop: the state after the event together
with the response emitted on the tray's SampledDatum channel, when the
event is a read request. -/
def ownerStep (s : UnitAssetState) (e : OwnerEvent) : UnitAssetState × Option SignalA_v1a :=
  match e with
  | .sample nv ts =>
    ({ s with traits := { s.traits with Value := nv }, tStamp := ts }, none)
  | .read =>
    (s, some { Value := s.traits.Value, Unit := "Percent", Timestamp := s.tStamp })
  | .output _ => (s, none)

/-- The owner loop run over a serialized trace of events: the final state
and the list of read responses, in order. -/
def ownerRun (s : UnitAssetState) (evs : List OwnerEvent) : UnitAssetState × List SignalA_v1a :=
  match evs with
  | [] => (s, [])
  | e :: rest =>
    let step := ownerStep s e
    let tail := ownerRun step.1 rest
    (tail.1, step.2.toList ++ tail.2)

/-- The owner state reached by a tick whose hardware read failed
(readInputVoltage returned 0 with an error), once the sampled value is
delivered to the owner loop at time `now`. -/
noncomputable def failedReadTickResult (s : UnitAssetState) (now : ℤ) : UnitAssetState :=
  (ownerStep s (.sample (sampleTick s.traits none) now)).1

/-- Concrete pre-tick owner state used to refute the skip-on-failure
claim: last-good value 42, captured at time 5. -/
noncomputable def preTickState : UnitAssetState :=
  { traits := { Address := "InputValue_1", Value := 42, MinValue := 0, MaxValue := 100 },
    tStamp := 5 }

lemma sampleTick_failure (ua : Traits) : sampleTick ua none = 0 := by
  simp only [sampleTick, readInputVoltage, NormalizeToPercent]
  norm_num

/-- C3 counterexample: a failed read on a tick does not skip the tick —
the zero value returned alongside the error is normalized and delivered,
so the stored last-good value 42 is overwritten with 0 and the timestamp
is overwritten as well. -/
theorem sampleFailure_overwrites_state :
    (failedReadTickResult preTickState 6).traits.Value ≠ preTickState.traits.Value
    ∧ (failedReadTickResult preTickState 6).tStamp ≠ preTickState.tStamp := by
  constructor
  · show (failedReadTickResult preTickState 6).traits.Value ≠ 42
    simp only [failedReadTickResult, ownerStep, sampleTick_failure]
    norm_num
  · show (failedReadTickResult preTickState 6).tStamp ≠ 5
    simp only [failedReadTickResult, ownerStep]
    decide

/-- C3 amended: on a failed read the loop logs the error but still
normalizes the zero value returned by readInputVoltage and delivers it,
so after the tick the stored value is 0 and the timestamp is the delivery
time; the configuration fields are untouched. -/
theorem sampleFailure_delivers_zero (s : UnitAssetState) (now : ℤ) :
    sampleTick s.traits none = 0
    ∧ (failedReadTickResult s now).traits.Value = 0
    ∧ (failedReadTickResult s now).tStamp = now
    ∧ (failedReadTickResult s now).traits.Address = s.traits.Address
    ∧ (failedReadTickResult s now).traits.MinValue = s.traits.MinValue
    ∧ (failedReadTickResult s now).traits.MaxValue = s.traits.MaxValue := by
  refine ⟨sampleTick_failure s.traits, ?_, rfl, rfl, rfl, rfl⟩
  show sampleTick s.traits none = 0
  exact sampleTick_failure s.traits

/-- C9: every response emitted by the owner loop over any serialized
event trace is a consistent value/timestamp pair: either the initial
state's pair or the pair carried by a single sample event of the trace —
a reader never observes a partial update mixing two sources. -/
theorem ownerRun_reads_consistent (s : UnitAssetState) (evs : List OwnerEvent)
    (f : SignalA_v1a) (hf : f ∈ (ownerRun s evs).2) :
    (f.Value = s.traits.Value ∧ f.Timestamp = s.tStamp)
    ∨ ∃ nv ts, OwnerEvent.sample nv ts ∈ evs ∧ f.Value = nv ∧ f.Timestamp = ts := by
  induction evs generalizing s with
  | nil => simp [ownerRun] at hf
  | cons e rest ih =>
    cases e with
    | sample nv ts =>
      simp only [ownerRun, ownerStep, Option.toList, List.nil_append] at hf
      rcases ih _ hf with h | ⟨nv', ts', hmem, hv, ht⟩
      · exact Or.inr ⟨nv, ts, List.mem_cons_self _ _, h.1, h.2⟩
      · exact Or.inr ⟨nv', ts', List.mem_cons_of_mem _ hmem, hv, ht⟩
    | read =>
      simp only [ownerRun, ownerStep, Option.toList, List.singleton_append,
        List.mem_cons] at hf
      rcases hf with hf | hf
      · subst hf
        exact Or.inl ⟨rfl, rfl⟩
      · rcases ih _ hf with h | ⟨nv', ts', hmem, hv, ht⟩
        · exact Or.inl h
        · exact Or.inr ⟨nv', ts', List.mem_cons_of_mem _ hmem, hv, ht⟩
    | output v =>
      simp only [ownerRun, ownerStep, Option.toList, List.nil_append] at hf
      rcases ih _ hf with h | ⟨nv', ts', hmem, hv, ht⟩
      · exact Or.inl h
      · exact Or.inr ⟨nv', ts', List.mem_cons_of_mem _ hmem, hv, ht⟩

/-- C9 witness: over the trace [sample 7 at 9, read] from the concrete
pre-tick state, the single emitted response is the pair (7, 9) of the
sample event. -/
theorem ownerRun_reads_consistent_witness :
    (({ Value := 7, Unit := "Percent", Timestamp := 9 } : SignalA_v1a).Value
        = preTickState.traits.Value
      ∧ ({ Value := 7, Unit := "Percent", Timestamp := 9 } : SignalA_v1a).Timestamp
        = preTickState.tStamp)
    ∨ ∃ nv ts, OwnerEvent.sample nv ts ∈ [OwnerEvent.sample 7 9, OwnerEvent.read]
        ∧ ({ Value := 7, Unit := "Percent", Timestamp := 9 } : SignalA_v1a).Value = nv
        ∧ ({ Value := 7, Unit := "Percent", Timestamp := 9 } : SignalA_v1a).Timestamp = ts :=
  ownerRun_reads_consistent preTickState [OwnerEvent.sample 7 9, OwnerEvent.read]
    { Value := 7, Unit := "Percent", Timestamp := 9 }
    (by simp [ownerRun, ownerStep])

/-- C10: NormalizeToPercent equals the reading divided by 100 and clamped
to [0, 100]; it is independent of the min and max arguments and its
result always lies in [0, 100]. -/
theorem NormalizeToPercent_spec (reading lo hi lo' hi' : ℝ) :
    NormalizeToPercent reading lo hi = NormalizeToPercent reading lo' hi'
    ∧ NormalizeToPercent reading lo hi = max 0 (min (reading / 100) 100)
    ∧ 0 ≤ NormalizeToPercent reading lo hi
    ∧ NormalizeToPercent reading lo hi ≤ 100 := by
  refine ⟨rfl, ?_, ?_, ?_⟩
  · simp only [NormalizeToPercent]
    split_ifs with h1 h2
    · exact (max_eq_left ((min_le_left _ _).trans h1.le)).symm
    · rw [min_eq_right h2.le, max_eq_right]
      norm_num
    · rw [min_eq_left (not_lt.mp h2), max_eq_right (not_lt.mp h1)]
  · simp only [NormalizeToPercent]
    split_ifs with h1 h2
    · norm_num
    · norm_num
    · exact not_lt.mp h1
  · simp only [NormalizeToPercent]
    split_ifs with h1 h2
    · norm_num
    · norm_num
    · exact not_lt.mp h2

end Revolutionary

namespace Gateway

/-- Response written by an HTTP handler: either a 200 response carrying a
signal form (usecases.HTTPProcessGetRequest), or a bare status code
written with http.Error / WriteHeader. -/
inductive HttpResponse where
  | okSignal (f : SignalA_v1a)
  | status (code : ℕ)

/-- Outcome of the select statement in the GET branch of the access
handler (src/revolutionary, Serving/access): whichever of the tray's
Error channel, the tray's SampledDatum channel or the 5-second timer
fires first. -/
inductive GetOutcome where
  | errored
  | sampled (f : SignalA_v1a)
  | timedOut

/-- The timeout bound of the access handler's select statements, in
seconds (time.After(5 * time.Second)). -/
def accessTimeoutSeconds : ℕ := 5

/-- The GET branch of the access handler: an error from the state owner
yields HTTP 500, a sampled signal is returned as the 200 response, and an
elapsed 5-second timer yields HTTP 504. -/
def accessGet : GetOutcome → HttpResponse
  | .errored => .status 500
  | .sampled f => .okSignal f
  | .timedOut => .status 504

/-- Classification of an inbound PUT/POST request body in the access
handler: mime.ParseMediaType failure, io.ReadAll failure, usecases.Unpack
failure, a form of the wrong type, or a well-formed SignalA_v1a carrying
the decoded output value. -/
inductive WriteRequest where
  | badMediaType
  | unreadableBody
  | malformedBody
  | wrongFormType
  | wellFormed (v : ℝ)

/-- The PUT/POST branch of the access handler: the response written,
together with the value sent on the unit asset's output channel (none
when the handler returns before reaching the channel send).  The branch
contains no timer: a well-formed request is acknowledged with 200
immediately after the channel send. -/
def accessWrite : WriteRequest → HttpResponse × Option ℝ
  | .badMediaType => (.status 415, none)
  | .unreadableBody => (.status 400, none)
  | .malformedBody => (.status 400, none)
  | .wrongFormType => (.status 400, none)
  | .wellFormed v => (.status 200, some v)

/-- C7: the GET branch replies 504 when the 5-second bound elapses first,
500 when the state owner reports an error, and otherwise returns the
sampled signal; every outcome produces exactly one of these three
responses. -/
theorem accessGet_spec :
    accessTimeoutSeconds = 5
    ∧ accessGet .timedOut = .status 504
    ∧ accessGet .errored = .status 500
    ∧ ∀ o : GetOutcome,
        (∃ f, o = .sampled f ∧ accessGet o = .okSignal f)
        ∨ (o = .errored ∧ accessGet o = .status 500)
        ∨ (o = .timedOut ∧ accessGet o = .status 504) := by
  refine ⟨rfl, rfl, rfl, fun o => ?_⟩
  cases o with
  | errored => exact Or.inr (Or.inl ⟨rfl, rfl⟩)
  | sampled f => exact Or.inl ⟨f, rfl, rfl⟩
  | timedOut => exact Or.inr (Or.inr ⟨rfl, rfl⟩)

/-- C8 counterexample: a request with a malformed or unsupported media
type is answered with HTTP 415 (http.StatusUnsupportedMediaType), not
with HTTP 400 as claimed. -/
theorem accessWrite_badMediaType_is_415 :
    (accessWrite .badMediaType).1 = .status 415
    ∧ (accessWrite .badMediaType).1 ≠ .status 400 := by
  refine ⟨rfl, fun h => ?_⟩
  simp only [accessWrite, HttpResponse.status.injEq] at h
  exact absurd h (by decide)

/-- C8 amended: a well-formed Signal body yields HTTP 200 after the value
is sent to the output channel; an unreadable body, a body that fails to
unpack, or a form of the wrong type yields HTTP 400; a malformed or
unsupported media type yields HTTP 415; and the write branch has no
timeout path, so no request class ever yields HTTP 504. -/
theorem accessWrite_spec (v : ℝ) :
    accessWrite (.wellFormed v) = (.status 200, some v)
    ∧ accessWrite .unreadableBody = (.status 400, none)
    ∧ accessWrite .malformedBody = (.status 400, none)
    ∧ accessWrite .wrongFormType = (.status 400, none)
    ∧ accessWrite .badMediaType = (.status 415, none)
    ∧ ∀ rc : WriteRequest, (accessWrite rc).1 ≠ .status 504 := by
  refine ⟨rfl, rfl, rfl, rfl, rfl, fun rc => ?_⟩
  cases rc <;> intro h <;>
    simp only [accessWrite, HttpResponse.status.injEq] at h <;>
    exact absurd h (by decide)

end Gateway

end Systems
